import Mathlib

/-!
A verification development for the LaGriT/tinerator meshing orchestration
layer (`tinerator/generate_triplane.py`).  The Python module drives an
external mesh kernel; the logic that lives in the Python layer itself --
index arithmetic, input validation, layer bookkeeping, command scheduling --
is embedded here as executable Lean definitions, and the documented
behaviour is proved or refuted against them.

Conventions: Python floats are modelled as rationals (all the values the
properties touch are exact decimal literals), numpy integer arrays as
`List ℤ`, and the stream of commands a function sends to the mesh kernel as
a list of events, so that ordering properties ("before any kernel command")
become statements about list membership and position.
-/

/-! ### LayerStacker (`stackLayers`, source lines 268-310)

`stackLayers` first normalizes its `layers` argument: when `layers[0] != 0`
it prepends a `0.0` thickness and a matching material id `0`, and only in
that branch asserts `len(layers) == len(matids)`.  It then repeatedly
mutates one mesh object: each loop iteration subtracts the current offset
from the mesh's `zic` (vertical) attribute and dumps the mesh as one layer
surface, so the dumped surfaces carry the running sum of all offsets seen
so far. -/

/-- The normalization prelude of `stackLayers` (source lines 284-287).
Python raises `IndexError` on `layers[0]` when the list is empty; the
assert only runs inside the `layers[0] != 0` branch. -/
def stackLayersPrelude : List ℚ → List ℤ → Except String (List ℚ × List ℤ)
  | [], _ => Except.error "IndexError: layers is empty"
  | l0 :: rest, matids =>
    if l0 ≠ 0 then
      if (0 :: l0 :: rest).length = (0 :: matids).length then
        Except.ok (0 :: l0 :: rest, 0 :: matids)
      else
        Except.error "AssertionError: len(layers) != len(matids)"
    else
      Except.ok (l0 :: rest, matids)

/-- The dump loop of `stackLayers` (source lines 295-297): `motmp_top` is a
single mesh whose z-values are `zs`; each iteration subtracts the current
offset from every z-value in place and dumps the result, so each dumped
surface sees the accumulated shift. -/
def stackDumps : List ℚ → List ℚ → List (List ℚ)
  | _, [] => []
  | zs, offset :: rest =>
    let zs' := zs.map (fun z => z - offset)
    zs' :: stackDumps zs' rest

/-- `stackLayers` as far as the claims reach: normalize the thickness and
material lists, then produce the dumped layer surfaces for a surface mesh
whose z-values are `zs`. -/
def stackLayersModel (zs : List ℚ) (layers : List ℚ) (matids : List ℤ) :
    Except String (List (List ℚ)) :=
  match stackLayersPrelude layers matids with
  | Except.error e => Except.error e
  | Except.ok p => Except.ok (stackDumps zs p.1)

/-- Maximum of a list of rationals (0 for the empty list). -/
def listMax (l : List ℚ) : ℚ := l.foldr max (l.headD 0)

/-- Minimum of a list of rationals (0 for the empty list). -/
def listMinQ (l : List ℚ) : ℚ := l.foldr min (l.headD 0)

/-- Vertical extent of a collection of z-values: max minus min. -/
def vertExtent (l : List ℚ) : ℚ := listMax l - listMinQ l

/-! ### `getFacesetsFromCoordinates` (source lines 798-847)

Each query coordinate is mapped to the index of the closest boundary point
(`scipy.spatial.distance.cdist(...).argmin()`: first index attaining the
minimal Euclidean distance; we use the squared distance, which has the same
argmin).  The index list is sorted descending and the material-id array is
filled by `mat_ids[fs[-1]:fs[i]] = i+2` for `i` over that descending
list. -/

/-- Squared Euclidean distance between two integer points. -/
def sqdist (p q : ℤ × ℤ) : ℤ := (p.1 - q.1) ^ 2 + (p.2 - q.2) ^ 2

/-- Index and value of the first minimum of a list (numpy `argmin`
semantics: the earliest index attaining the minimum). -/
def firstMin : List ℤ → Option (Nat × ℤ)
  | [] => none
  | d :: rest =>
    match firstMin rest with
    | none => some (0, d)
    | some (j, m) => if d ≤ m then some (0, d) else some (j + 1, m)

/-- `distance.cdist([c], boundary).argmin()`: index of the boundary point
closest to `c`. -/
def nearestIndex (boundary : List (ℤ × ℤ)) (c : ℤ × ℤ) : Nat :=
  ((firstMin (boundary.map (fun b => sqdist c b))).map Prod.fst).getD 0

/-- Python's stable descending sort `fs.sort(reverse=True)`. -/
def sortDesc (l : List Nat) : List Nat :=
  List.insertionSort (fun a b => b ≤ a) l

/-- Numpy slice assignment `arr[a:b] = v` on a 1-D integer array. -/
def setSlice (l : List ℤ) (a b : Nat) (v : ℤ) : List ℤ :=
  (List.range l.length).zipWith (fun j x => if a ≤ j ∧ j < b then v else x) l

/-- `getFacesetsFromCoordinates` for a plain coordinate list (the `'all'`
key case), source lines 827-843. -/
def getFacesetsFromCoordinates (coords : List (ℤ × ℤ)) (boundary : List (ℤ × ℤ)) :
    List ℤ :=
  let mat_ids : List ℤ := List.replicate boundary.length 1
  let fs := sortDesc (coords.map (nearestIndex boundary))
  (List.range fs.length).foldl
    (fun acc i => setSlice acc (fs.getLastD 0) (fs.getD i 0) ((i : ℤ) + 2)) mat_ids

/-! ### FacesetClassifier (`generateComplexFacesets`, source lines 621-796)

The boundary-attribute array is first shifted so its minimum becomes 1
(`deepcopy(boundary_attributes) - np.min(boundary_attributes) + 1`, an
out-of-place numpy computation), then an assert demands that the sorted
distinct shifted values are exactly `1..k` (`np.unique(...) ==
range(1, size+1)`).  `faceset_count` is the number of distinct values plus
2, plus 1 more when a `'top'` sub-partition is requested, in which case the
sub-partition faces are assigned the incremented `faceset_count` itself;
one faceset file `ss<i>_fs.faceset` is written per id in
`1..faceset_count`. -/

/-- Minimum of an integer list (`np.min`; 0 for the empty list, which
numpy rejects). -/
def listMinInt (l : List ℤ) : ℤ := l.foldr min (l.headD 0)

/-- The shifted boundary-attribute array of source line 661:
`deepcopy(boundary_attributes) - np.min(boundary_attributes) + 1`. -/
def shiftedAttributes (ba : List ℤ) : List ℤ :=
  ba.map (fun x => x - listMinInt ba + 1)

/-- `np.unique`: the sorted list of distinct values. -/
def sortedDedup (l : List ℤ) : List ℤ :=
  (List.insertionSort (fun a b => a ≤ b) l).dedup

/-- `np.size(np.unique(shifted))`: the number of distinct (shifted)
boundary material ids. -/
def numDistinct (ba : List ℤ) : Nat := (sortedDedup (shiftedAttributes ba)).length

/-- `np.array(range(1, k+1))` as integers. -/
def rangeList (k : Nat) : List ℤ := (List.range k).map (fun (i : ℕ) => (i : ℤ) + 1)

/-- The contiguity assert of source lines 665-667: the sorted distinct
shifted ids must be exactly `1..k`. -/
def boundaryAttributesOk (ba : List ℤ) : Bool :=
  decide (sortedDedup (shiftedAttributes ba) = rangeList (numDistinct ba))

/-- `faceset_count` of source lines 750 and 766: distinct boundary
materials plus 2, plus 1 when a top sub-partition was requested. -/
def facesetCount (ba : List ℤ) (has_top : Bool) : Nat :=
  (numDistinct ba + 2) + (if has_top then 1 else 0)

/-- The id the top-split faceset receives (source line 769): the value of
`faceset_count` right after its increment. -/
def topSplitId (ba : List ℤ) : Nat := facesetCount ba true

/-- The faceset files written by the loop of source lines 775-789: one
`ss<i>_fs.faceset` per id in `1..faceset_count`. -/
def facesetFiles (ba : List ℤ) (has_top : Bool) : List String :=
  (List.range (facesetCount ba has_top)).map
    (fun i => "ss" ++ toString (i + 1) ++ "_fs.faceset")

/-- The attribute store: Python/numpy arrays addressed by reference.  The
shift of source line 661 allocates a fresh array (`deepcopy` followed by
out-of-place numpy arithmetic) and rebinds only the local name; an in-place
variant would instead overwrite the slot `r`. -/
def normalizeBoundaryAttributes (s : List (List ℤ)) (r : Nat) :
    List (List ℤ) × Nat :=
  let arr := s.getD r []
  let shifted := arr.map (fun x => x - listMinInt arr + 1)
  (s ++ [shifted], s.length)

/-! ### RasterAttributeInterpolator: the no-data fill (source lines
122-135 of `addElevation` and 199-213 of `addAttribute`)

Cells equal to the sentinel are masked, and every grid position is then
assigned the value of the nearest unmasked cell
(`interpolate.griddata(..., method='nearest')`; scipy's tie-break among
equidistant valid cells is implementation-defined, and the properties
proved below do not depend on it -- we pick the first minimum).  The
follow-up `data[data == np.nan] = no_data_value` compares against NaN and
never fires, so the fill output is exactly the nearest-valid-value grid. -/

/-- Grid position of flat index `i` in a raster of width `w`. -/
def gridPos (w : Nat) (i : Nat) : ℤ × ℤ := (((i / w : Nat) : ℤ), ((i % w : Nat) : ℤ))

/-- Squared distance between the grid positions of two flat indices. -/
def sqdistCells (w : Nat) (i j : Nat) : ℤ := sqdist (gridPos w i) (gridPos w j)

/-- First index of `l` minimizing `cost` (ties go to the earlier index). -/
def argminList (cost : Nat → ℤ) : List Nat → Option Nat
  | [] => none
  | j :: rest =>
    match argminList cost rest with
    | none => some j
    | some k => if cost j ≤ cost k then some j else some k

/-- The flat indices of the raster cells not equal to the no-data
sentinel (the unmasked cells). -/
def validIdx (nd : ℚ) (g : List ℚ) : List Nat :=
  (List.range g.length).filter (fun j => g.getD j nd ≠ nd)

/-- The no-data fill: every cell receives the value of the nearest valid
cell.  With no valid cell at all, scipy has no data points to interpolate
from; the claims only concern rasters with at least one valid cell, and we
return the raster unchanged in that degenerate case. -/
def fillNoData (w : Nat) (nd : ℚ) (g : List ℚ) : List ℚ :=
  if validIdx nd g = [] then g
  else
    (List.range g.length).map (fun i =>
      match argminList (fun j => sqdistCells w i j) (validIdx nd g) with
      | some j => g.getD j nd
      | none => nd)

/-! ### `addAttribute` (source lines 168-266) as a kernel-command trace

The function resamples and fills the raster, dumps it to a scratch file,
and then issues kernel commands: read the sheet, extrude it, add the
`esatt` attribute, voronoi-interpolate onto the extrusion, delete the
sheet, read the stacked mesh, optionally add the named target attribute,
and add the `eslayer` attribute.  Only after all of that does it normalize
`layers` (wrapping a scalar, defaulting to `1..number_of_layers`) and
check `all(isinstance(x, int) for x in layers)`, raising `ValueError` on a
non-integer entry; the per-layer commands and the final dump follow the
check. -/

/-- A Python number as it matters to `isinstance(x, int)`. -/
inductive PyNum
  | intVal (n : ℤ)
  | floatVal (q : ℚ)
deriving DecidableEq

/-- `isinstance(x, int)`. -/
def PyNum.isInt : PyNum → Bool
  | PyNum.intVal _ => true
  | PyNum.floatVal _ => false

/-- The integer a `PyNum` stands for (0 for a float; only used after the
integer check has passed). -/
def PyNum.toInt : PyNum → ℤ
  | PyNum.intVal n => n
  | PyNum.floatVal _ => 0

/-- One kernel command issued by `addAttribute`, in source order. -/
inductive KEvent
  | readSheet
  | extrudeSheet
  | addattExtrusion
  | interpVoronoi
  | deleteSheet
  | readStack
  | addattName
  | addattEslayer
  | setattLayer (l : ℤ)
  | eltsetLayer (l : ℤ)
  | interpLayer (l : ℤ)
  | addLayerValue (l : ℤ)
  | deleteExtrusion
  | dumpMesh
deriving DecidableEq

/-- `addAttribute` as the ordered list of kernel commands it issues,
paired with the `ValueError` it raises, if any.  `layersArg = none` models
`layers=None` (defaulting to every layer); a Python scalar argument is
wrapped into a one-element list before the check, so a list argument
covers it. -/
def addAttribute (layersArg : Option (List PyNum)) (number_of_layers : Nat)
    (has_attribute_name : Bool) : List KEvent × Option String :=
  let pre : List KEvent :=
    [KEvent.readSheet, KEvent.extrudeSheet, KEvent.addattExtrusion,
     KEvent.interpVoronoi, KEvent.deleteSheet, KEvent.readStack]
    ++ (if has_attribute_name then [KEvent.addattName] else [])
    ++ [KEvent.addattEslayer]
  let layers : List PyNum :=
    match layersArg with
    | none => (List.range number_of_layers).map (fun i => PyNum.intVal ((i : ℤ) + 1))
    | some l => l
  if layers.all PyNum.isInt then
    (pre
      ++ layers.flatMap (fun l =>
          [KEvent.setattLayer l.toInt, KEvent.setattLayer l.toInt,
           KEvent.eltsetLayer l.toInt, KEvent.interpLayer l.toInt,
           KEvent.addLayerValue l.toInt])
      ++ [KEvent.deleteExtrusion, KEvent.dumpMesh], none)
  else
    (pre, some "layers contains non-conforming data")

/-! ### `buildUniformTriplane` (source lines 384-472) as a command trace -/

/-- One command of the uniform-triplane engine. -/
inductive TCmd
  | refineEdges (threshold : ℚ)
  | recon (n : Nat)
  | smooth
  | compress
  | setup (s : String)
  | final (s : String)
deriving DecidableEq

/-- Source line 419: `[min_edge*i for i in [1,2,4,8,16,32,64]][::-1]`. -/
def length_scales (min_edge : ℚ) : List ℚ :=
  (([1, 2, 4, 8, 16, 32, 64] : List ℚ).map (fun i => min_edge * i)).reverse

/-- The body of the scale loop (source lines 446-452): one Rivara
edge-refinement pass at threshold `ln`, three repetitions of
reconnection-then-smoothing, then a point compaction. -/
def scalePass (ln : ℚ) : List TCmd :=
  TCmd.refineEdges ln ::
    ((List.range 3).flatMap (fun _ => [TCmd.recon 0, TCmd.smooth]) ++ [TCmd.compress])

/-- The whole scale loop of `buildUniformTriplane`. -/
def scaleLoop (min_edge : ℚ) : List TCmd :=
  (length_scales min_edge).flatMap scalePass

/-- The setup commands before the scale loop (source lines 421-441). -/
def uniformSetup : List TCmd :=
  [TCmd.setup "read poly_1.inp", TCmd.setup "create triplane",
   TCmd.setup "copypts", TCmd.setup "triangulate",
   TCmd.setup "setatt itetclr 1", TCmd.setup "resetpts itp"]

/-- The convergence commands after the scale loop (source lines 455-461). -/
def uniformFinish : List TCmd :=
  ((List.range 6).flatMap (fun _ => [TCmd.smooth, TCmd.recon 0, TCmd.compress]))
  ++ [TCmd.compress, TCmd.recon 1, TCmd.smooth, TCmd.recon 0, TCmd.recon 1]

/-- `buildUniformTriplane` as its full kernel-command trace. -/
def buildUniformTriplane (min_edge : ℚ) : List TCmd :=
  uniformSetup ++ scaleLoop min_edge ++ uniformFinish

/-! ### `buildRefinedTriplane` (source lines 475-619) as its LaGriT script

The function assembles one textual script.  Numeric `define` lines are kept
with their exact values; `H_TRANS` involves `sqrt` and `cos(arcsin(delta))`
(floating-point, irrational), so its already-computed value is taken as the
parameter `h_trans` -- no claim touches it.  Each `perturb` command of the
script names the magnitude token it passes to the kernel twice (once per
axis); we record that token once per command. -/

/-- One line of the assembled LaGriT script. -/
inductive LgStmt
  | defineNum (name : String) (val : ℚ)
  | defineText (name : String) (val : String)
  | run (text : String)
  | perturbCmd (magnitude : String)
deriving DecidableEq

/-- The script assembled by `buildRefinedTriplane` (source lines 507-616),
for base length `h`, grading parameters `slope` and `refine_dist`, output
path `outfile`, and the precomputed `H_TRANS` value `h_trans`. -/
def buildRefinedTriplane (h slope refine_dist h_trans : ℚ) (outfile : String) :
    List LgStmt :=
  [LgStmt.defineNum "ID" 1,
   LgStmt.defineText "OUTFILE_GMV" "mesh_1.gmv",
   LgStmt.defineText "OUTFILE_AVS" outfile,
   LgStmt.defineText "OUTFILE_LG" "mesh_1.lg",
   LgStmt.defineText "POLY_FILE" "poly_1.inp",
   LgStmt.defineText "LINE_FILE" "intersections_1.inp",
   LgStmt.defineText "QUAD_FILE" "tmp_quad_1.inp",
   LgStmt.defineText "EXCAVATE_FILE" "tmp_excavate_1.inp",
   LgStmt.defineText "PRE_FINAL_FILE" "tmp_pre_final_1.inp",
   LgStmt.defineText "PRE_FINAL_MASSAGE" "tmp_pre_final_massage_1.gmv",
   LgStmt.defineNum "H_SCALE" h,
   LgStmt.defineNum "H_EPS" (h * (1 / 10000000)),
   LgStmt.defineNum "H_SCALE2" (1.5 * h),
   LgStmt.defineNum "H_EXTRUDE" (0.5 * h),
   LgStmt.defineNum "H_TRANS" h_trans,
   LgStmt.defineNum "H_PRIME" (0.8 * h),
   LgStmt.defineNum "H_PRIME2" (0.3 * h),
   LgStmt.defineNum "H_SCALE3" (3 * h),
   LgStmt.defineNum "H_SCALE8" (8 * h),
   LgStmt.defineNum "H_SCALE16" (16 * h),
   LgStmt.defineNum "H_SCALE32" (32 * h),
   LgStmt.defineNum "H_SCALE64" (64 * h),
   LgStmt.defineNum "PURTURB8" (8 * 0.05 * h),
   LgStmt.defineNum "PURTURB16" (16 * 0.05 * h),
   LgStmt.defineNum "PURTURB32" (32 * 0.05 * h),
   LgStmt.defineNum "PURTURB64" (64 * 0.05 * h),
   LgStmt.defineNum "PARAM_A" slope,
   LgStmt.defineNum "PARAM_B" (h * (1 - slope * refine_dist)),
   LgStmt.defineNum "PARAM_A2" (0.5 * slope),
   LgStmt.defineNum "PARAM_B2" (h * (1 - 0.5 * slope * refine_dist)),
   LgStmt.defineNum "THETA" 0,
   LgStmt.defineNum "X1" 0, LgStmt.defineNum "Y1" 0, LgStmt.defineNum "Z1" 0,
   LgStmt.defineNum "X2" 0, LgStmt.defineNum "Y2" 0, LgStmt.defineNum "Z2" 0,
   LgStmt.defineNum "FAMILY" 2,
   LgStmt.defineText "OUTPUT_INTER_ID_SSINT" "id_tri_node_1.list",
   LgStmt.run "read / POLY_FILE / mo_poly_work",
   LgStmt.run "read / LINE_FILE / mo_line_work",
   LgStmt.run "cmo / create / mo_pts / / / triplane",
   LgStmt.run "copypts / mo_pts / mo_poly_work",
   LgStmt.run "cmo / select / mo_pts",
   LgStmt.run "triangulate / clockwise",
   LgStmt.run "cmo / setatt / mo_pts / imt / 1 0 0 / ID",
   LgStmt.run "cmo / setatt / mo_pts / itetclr / 1 0 0 / ID",
   LgStmt.run "resetpts / itp",
   LgStmt.run "cmo / delete / mo_poly_work",
   LgStmt.run "cmo / select / mo_pts",
   LgStmt.run "massage / H_SCALE64 / H_EPS / H_EPS",
   LgStmt.run "recon 0; smooth;recon 0;smooth;recon 0;smooth;recon 0",
   LgStmt.run "resetpts / itp",
   LgStmt.run "pset / p_move / attribute / itp / 1 0 0 / 0 / eq",
   LgStmt.perturbCmd "PERTURB64",
   LgStmt.run "recon 0; smooth;recon 0;smooth;recon 0;smooth;recon 0",
   LgStmt.run "smooth;recon 0;smooth;recon 0;smooth;recon 0",
   LgStmt.run "massage / H_SCALE32 / H_EPS / H_EPS",
   LgStmt.run "resetpts / itp",
   LgStmt.run "pset / p_move / attribute / itp / 1 0 0 / 0 / eq",
   LgStmt.perturbCmd "PERTURB32",
   LgStmt.run "recon 0; smooth;recon 0;smooth;recon 0;smooth;recon 0",
   LgStmt.run "smooth;recon 0;smooth;recon 0;smooth;recon 0",
   LgStmt.run "massage / H_SCALE16 / H_EPS / H_EPS",
   LgStmt.run "resetpts / itp",
   LgStmt.run "pset / p_move / attribute / itp / 1 0 0 / 0 / eq",
   LgStmt.perturbCmd "PERTURB16",
   LgStmt.run "recon 0; smooth;recon 0;smooth;recon 0;smooth;recon 0",
   LgStmt.run "smooth;recon 0;smooth;recon 0;smooth;recon 0",
   LgStmt.run "massage / H_SCALE8 / H_EPS / H_EPS",
   LgStmt.run "resetpts / itp",
   LgStmt.run "pset / p_move / attribute / itp / 1 0 0 / 0 / eq",
   LgStmt.perturbCmd "PERTURB8",
   LgStmt.run "recon 0; smooth;recon 0;smooth;recon 0;smooth;recon 0",
   LgStmt.run "smooth;recon 0;smooth;recon 0;smooth;recon 0",
   LgStmt.run "cmo/addatt/ mo_pts /x_four/vdouble/scalar/nnodes",
   LgStmt.run "cmo/addatt/ mo_pts /fac_n/vdouble/scalar/nnodes",
   LgStmt.run "massage2/user_function2.lgi/H_PRIME/fac_n/1.e-5/1.e-5/1 0 0/strictmergelength",
   LgStmt.run "assign///maxiter_sm/1",
   LgStmt.run "smooth;recon 0;smooth;recon 0;smooth;recon 0",
   LgStmt.run "assign///maxiter_sm/10",
   LgStmt.run "massage2/user_function.lgi/H_PRIME/fac_n/1.e-5/1.e-5/1 0 0/strictmergelength",
   LgStmt.run "cmo / DELATT / mo_pts / rf_field_name",
   LgStmt.run "dump / OUTFILE_AVS / mo_pts",
   LgStmt.run "finish"]

/-- The names bound by `define` lines of a script. -/
def definedNames (script : List LgStmt) : List String :=
  script.flatMap (fun s =>
    match s with
    | LgStmt.defineNum n _ => [n]
    | LgStmt.defineText n _ => [n]
    | _ => [])

/-- The magnitude tokens the `perturb` commands of a script pass to the
kernel. -/
def perturbNames (script : List LgStmt) : List String :=
  script.flatMap (fun s =>
    match s with
    | LgStmt.perturbCmd n => [n]
    | _ => [])

/-! ## Helper lemmas -/

/-- `getD` at the index just past `s` of `s ++ [a]` is `a`. -/
theorem getD_append_singleton (s : List (List ℤ)) (a : List ℤ) :
    (s ++ [a]).getD s.length [] = a := by
  induction s with
  | nil => rfl
  | cons hd tl ih => simp [ih]

/-- `sortedDedup` produces a weakly sorted list. -/
theorem sortedDedup_sorted (l : List ℤ) : (sortedDedup l).Sorted (· ≤ ·) :=
  (List.sorted_insertionSort _ l).sublist (List.dedup_sublist _)

/-- `sortedDedup` produces a duplicate-free list. -/
theorem sortedDedup_nodup (l : List ℤ) : (sortedDedup l).Nodup :=
  List.nodup_dedup _

/-- Membership in `sortedDedup` is membership in the original list. -/
theorem mem_sortedDedup (x : ℤ) (l : List ℤ) : x ∈ sortedDedup l ↔ x ∈ l :=
  (List.mem_dedup).trans (List.perm_insertionSort _ l).mem_iff

/-- `rangeList k` is strictly sorted. -/
theorem rangeList_sorted_lt (k : Nat) : (rangeList k).Sorted (· < ·) := by
  refine List.Pairwise.map (fun (i : ℕ) => (i : ℤ) + 1) ?_ (List.pairwise_lt_range k)
  intro a b hab
  show (a : ℤ) + 1 < (b : ℤ) + 1
  omega

/-- `rangeList k` is weakly sorted. -/
theorem rangeList_sorted (k : Nat) : (rangeList k).Sorted (· ≤ ·) :=
  (rangeList_sorted_lt k).le_of_lt

/-- `rangeList k` is duplicate-free. -/
theorem rangeList_nodup (k : Nat) : (rangeList k).Nodup :=
  (rangeList_sorted_lt k).nodup

/-- Membership in `rangeList k` is exactly `1 ≤ x ≤ k`. -/
theorem mem_rangeList (x : ℤ) (k : Nat) : x ∈ rangeList k ↔ 1 ≤ x ∧ x ≤ (k : ℤ) := by
  simp only [rangeList, List.mem_map, List.mem_range]
  constructor
  · rintro ⟨i, hi, rfl⟩
    omega
  · rintro ⟨h1, h2⟩
    refine ⟨(x - 1).toNat, ?_, ?_⟩ <;> omega

/-- `argminList` returns an element of the list. -/
theorem argminList_mem (cost : Nat → ℤ) : ∀ (l : List Nat) (j : Nat),
    argminList cost l = some j → j ∈ l := by
  intro l
  induction l with
  | nil =>
    intro j h
    simp [argminList] at h
  | cons a rest ih =>
    intro j h
    simp only [argminList] at h
    rcases hrec : argminList cost rest with _ | k
    · rw [hrec] at h
      have h' : a = j := Option.some.inj h
      exact h' ▸ List.mem_cons_self a rest
    · rw [hrec] at h
      have h' : (if cost a ≤ cost k then some a else some k) = some j := h
      by_cases hc : cost a ≤ cost k
      · rw [if_pos hc] at h'
        exact (Option.some.inj h') ▸ List.mem_cons_self a rest
      · rw [if_neg hc] at h'
        exact List.mem_cons_of_mem a ((Option.some.inj h') ▸ ih k hrec)

/-- `argminList` finds something on a nonempty list. -/
theorem argminList_isSome (cost : Nat → ℤ) (l : List Nat) (h : l ≠ []) :
    ∃ j, argminList cost l = some j := by
  cases l with
  | nil => exact absurd rfl h
  | cons a rest =>
    simp only [argminList]
    rcases argminList cost rest with _ | k
    · exact ⟨a, rfl⟩
    · by_cases hc : cost a ≤ cost k
      · exact ⟨a, if_pos hc⟩
      · exact ⟨k, if_neg hc⟩

/-- `argminList` returns the unique strict minimizer when there is one. -/
theorem argminList_unique_min (cost : Nat → ℤ) : ∀ (l : List Nat) (j0 : Nat),
    j0 ∈ l → (∀ j ∈ l, j ≠ j0 → cost j0 < cost j) →
    argminList cost l = some j0 := by
  intro l
  induction l with
  | nil =>
    intro j0 hmem _
    exact absurd hmem (List.not_mem_nil j0)
  | cons a rest ih =>
    intro j0 hmem hmin
    have hmin' : ∀ j ∈ rest, j ≠ j0 → cost j0 < cost j :=
      fun j hj => hmin j (List.mem_cons_of_mem a hj)
    simp only [argminList]
    by_cases haj : a = j0
    · subst haj
      rcases hrec : argminList cost rest with _ | k
      · rfl
      · have hk : k ∈ rest := argminList_mem cost rest k hrec
        show (if cost a ≤ cost k then some a else some k) = some a
        by_cases hkj : k = a
        · subst hkj
          rw [if_pos le_rfl]
        · rw [if_pos (hmin k (List.mem_cons_of_mem _ hk) ?_).le]
          exact hkj
    · have hrest : j0 ∈ rest := by
        rcases List.mem_cons.mp hmem with h1 | h2
        · exact absurd h1.symm haj
        · exact h2
      rw [ih j0 hrest hmin']
      show (if cost a ≤ cost j0 then some a else some j0) = some j0
      rw [if_neg (not_le.mpr (hmin a (List.mem_cons_self a rest) haj))]

/-- Flat raster indices have distinct grid positions. -/
theorem gridPos_inj (w : Nat) (i j : Nat) (h : gridPos w i = gridPos w j) : i = j := by
  rw [gridPos, gridPos, Prod.mk.injEq] at h
  obtain ⟨h1, h2⟩ := h
  have e1 : i / w = j / w := by exact_mod_cast h1
  have e2 : i % w = j % w := by exact_mod_cast h2
  calc i = w * (i / w) + i % w := (Nat.div_add_mod i w).symm
    _ = w * (j / w) + j % w := by rw [e1, e2]
    _ = j := Nat.div_add_mod j w

/-- The squared distance of a point to itself vanishes. -/
theorem sqdist_self (p : ℤ × ℤ) : sqdist p p = 0 := by
  simp [sqdist]

/-- The squared distance between distinct points is positive. -/
theorem sqdist_pos (p q : ℤ × ℤ) (h : p ≠ q) : 0 < sqdist p q := by
  have hne : p.1 ≠ q.1 ∨ p.2 ≠ q.2 := by
    by_contra hc
    push_neg at hc
    exact h (Prod.ext hc.1 hc.2)
  rw [sqdist]
  rcases hne with h1 | h2
  · have := pow_two_pos_of_ne_zero (sub_ne_zero.mpr h1)
    nlinarith [sq_nonneg (p.2 - q.2)]
  · have := pow_two_pos_of_ne_zero (sub_ne_zero.mpr h2)
    nlinarith [sq_nonneg (p.1 - q.1)]

/-- The filled raster keeps its shape. -/
theorem fillNoData_length (w : Nat) (nd : ℚ) (g : List ℚ) :
    (fillNoData w nd g).length = g.length := by
  rw [fillNoData]
  split_ifs
  · rfl
  · simp

/-- After one fill pass over a raster with a valid cell, no cell equals
the sentinel. -/
theorem fillNoData_no_sentinel (w : Nat) (nd : ℚ) (g : List ℚ)
    (hv : validIdx nd g ≠ []) : ∀ c ∈ fillNoData w nd g, c ≠ nd := by
  intro c hc
  rw [fillNoData, if_neg hv] at hc
  obtain ⟨i, _, hci⟩ := List.mem_map.mp hc
  obtain ⟨j, hj⟩ := argminList_isSome (fun j => sqdistCells w i j) _ hv
  rw [hj] at hci
  have hjm := argminList_mem _ _ _ hj
  rw [validIdx, List.mem_filter] at hjm
  have hjp : g.getD j nd ≠ nd := by
    have h2 := hjm.2
    simp only [decide_eq_true_eq] at h2
    exact h2
  have hgc : g.getD j nd = c := hci
  exact hgc ▸ hjp

/-- Reading every position of a list with `getD` rebuilds the list. -/
theorem map_getD_range (l : List ℚ) (d : ℚ) :
    (List.range l.length).map (fun i => l.getD i d) = l := by
  induction l with
  | nil => rfl
  | cons a t ih =>
    rw [List.length_cons, List.range_succ_eq_map, List.map_cons, List.map_map]
    congr 1

/-- A second fill pass over an already-filled raster changes nothing. -/
theorem fillNoData_idem (w : Nat) (nd : ℚ) (g : List ℚ)
    (hv : validIdx nd g ≠ []) :
    fillNoData w nd (fillNoData w nd g) = fillNoData w nd g := by
  have hns := fillNoData_no_sentinel w nd g hv
  have hgne : g.length ≠ 0 := by
    intro h0
    apply hv
    rw [validIdx, h0]
    rfl
  set g' := fillNoData w nd g with hg'
  have hlen : g'.length = g.length := fillNoData_length w nd g
  have hvalid : validIdx nd g' = List.range g'.length := by
    rw [validIdx, List.filter_eq_self]
    intro j hj
    rw [List.mem_range] at hj
    have hmem : g'.getD j nd ∈ g' := by
      rw [List.getD_eq_getElem _ _ hj]
      exact List.getElem_mem hj
    simp only [decide_eq_true_eq]
    exact hns _ hmem
  have hne2 : validIdx nd g' ≠ [] := by
    rw [hvalid]
    intro h0
    exact hgne (by rw [← hlen]; exact List.range_eq_nil.mp h0)
  simp only [fillNoData]
  rw [if_neg hne2]
  have hmapeq : (List.range g'.length).map (fun i =>
      match argminList (fun j => sqdistCells w i j) (validIdx nd g') with
      | some j => g'.getD j nd
      | none => nd)
      = (List.range g'.length).map (fun i => g'.getD i nd) := by
    apply List.map_congr_left
    intro i hi
    have hmin : ∀ j ∈ List.range g'.length, j ≠ i →
        sqdistCells w i i < sqdistCells w i j := by
      intro j _ hji
      have h0 : sqdistCells w i i = 0 := by
        rw [sqdistCells, sqdist_self]
      have hpos : 0 < sqdistCells w i j := by
        rw [sqdistCells]
        apply sqdist_pos
        intro he
        exact hji (gridPos_inj w i j he).symm
      omega
    have harg : argminList (fun j => sqdistCells w i j) (validIdx nd g')
        = some i := by
      rw [hvalid]
      exact argminList_unique_min _ _ i hi hmin
    rw [harg]
  rw [hmapeq, map_getD_range]

/-! ## The claims -/

/-- C1: refuted at a concrete input.  For the surface z-values `[0]` and
thicknesses `[0, 10, 20]`, `stackLayers` dumps the layer surfaces at
`0, -10, -30` (the running sum of the offsets), not at `0, -10, -20` as the
claim's per-layer shift would demand, and the resulting vertical extent is
30, not 20. -/
theorem C1_fixed_offset_refuted :
    stackLayersModel [0] [0, 10, 20] [1, 2, 3] = Except.ok [[0], [-10], [-30]]
    ∧ vertExtent (List.flatten [[(0 : ℚ)], [-10], [-30]]) = 30
    ∧ ([[(0 : ℚ)], [-10], [-30]] : List (List ℚ)) ≠ [[0], [-10], [-20]]
    ∧ (30 : ℚ) ≠ 20 := by
  refine ⟨?_, ?_, by decide, by decide⟩
  · simp [stackLayersModel, stackLayersPrelude, stackDumps]
    norm_num
  · simp [vertExtent, listMax, listMinQ]
    norm_num [max_def, min_def]

/-- C1 (amended): for thicknesses `[0, 10, 20]` with matching material ids,
`stackLayers` shifts the `k`-th dumped layer surface by the running sum of
the offsets so far (`0, -10, -30`), produces exactly 3 layer surfaces, and
for a flat input surface the volumetric mesh's vertical extent is 30. -/
theorem C1_cumulative_shifts : ∀ (zs : List ℚ) (z0 : ℚ),
    stackLayersModel zs [0, 10, 20] [1, 2, 3]
        = Except.ok [zs.map (fun z => z - 0), zs.map (fun z => z - 10),
                     zs.map (fun z => z - 30)]
    ∧ (stackDumps zs [0, 10, 20]).length = 3
    ∧ vertExtent (List.flatten (stackDumps [z0] [0, 10, 20])) = 30 := by
  intro zs z0
  refine ⟨?_, ?_, ?_⟩
  · simp [stackLayersModel, stackLayersPrelude, stackDumps, List.map_map,
      Function.comp, sub_sub]
    norm_num
  · simp [stackDumps]
  · have e : List.flatten (stackDumps [z0] [0, 10, 20])
        = [z0, z0 - 10, z0 - 10 - 20] := by
      simp [stackDumps]
    rw [e]
    simp [vertExtent, listMax, listMinQ, max_def, min_def]
    split_ifs <;> linarith

/-- C2: refuted at a concrete input.  On a 10-point boundary with query
points nearest to indices 2, 7 and 9, the code fills the ranges in
descending-marker order, so `[2,7)` receives 3 and `[7,9)` receives 2 --
not `[2,7) = 2`, `[7,9) = 3` as claimed (and index 9 itself keeps the
default id 1). -/
theorem C2_descending_ids_refuted :
    nearestIndex [(0, 0), (1, 0), (2, 0), (3, 0), (4, 0), (5, 0), (6, 0),
        (7, 0), (8, 0), (9, 0)] (2, 0) = 2
    ∧ nearestIndex [(0, 0), (1, 0), (2, 0), (3, 0), (4, 0), (5, 0), (6, 0),
        (7, 0), (8, 0), (9, 0)] (7, 0) = 7
    ∧ nearestIndex [(0, 0), (1, 0), (2, 0), (3, 0), (4, 0), (5, 0), (6, 0),
        (7, 0), (8, 0), (9, 0)] (9, 0) = 9
    ∧ getFacesetsFromCoordinates [(2, 0), (7, 0), (9, 0)]
        [(0, 0), (1, 0), (2, 0), (3, 0), (4, 0), (5, 0), (6, 0),
         (7, 0), (8, 0), (9, 0)]
        = [1, 1, 3, 3, 3, 3, 3, 2, 2, 1]
    ∧ ([1, 1, 3, 3, 3, 3, 3, 2, 2, 1] : List ℤ) ≠ [1, 1, 2, 2, 2, 2, 2, 3, 3, 1] := by
  decide

/-- C2 (amended): on a 10-point boundary, with query points nearest to
indices 2, 7 and 9 the sorted-descending marker loop assigns
`[2,9) = 2` and then overwrites `[2,7) = 3`, leaving `[2,7) = 3`,
`[7,9) = 2` and 1 elsewhere; with markers 2 and 7 only, the result is 1
everywhere except `[2,7) = 2`. -/
theorem C2_descending_range_ids : ∀ (boundary : List (ℤ × ℤ)) (c1 c2 c3 : ℤ × ℤ),
    boundary.length = 10 →
    nearestIndex boundary c1 = 2 → nearestIndex boundary c2 = 7 →
    nearestIndex boundary c3 = 9 →
    getFacesetsFromCoordinates [c1, c2, c3] boundary
        = [1, 1, 3, 3, 3, 3, 3, 2, 2, 1]
    ∧ getFacesetsFromCoordinates [c1, c2] boundary
        = [1, 1, 2, 2, 2, 2, 2, 1, 1, 1] := by
  intro boundary c1 c2 c3 hlen h1 h2 h3
  constructor
  · simp only [getFacesetsFromCoordinates, List.map_cons, List.map_nil,
      h1, h2, h3, hlen]
    decide
  · simp only [getFacesetsFromCoordinates, List.map_cons, List.map_nil,
      h1, h2, hlen]
    decide

/-- C2 witness: the amended statement at the concrete boundary
`(0,0) .. (9,0)` with query points `(2,0)`, `(7,0)`, `(9,0)`. -/
theorem C2_descending_range_ids_inst :
    getFacesetsFromCoordinates [(2, 0), (7, 0), (9, 0)]
        [(0, 0), (1, 0), (2, 0), (3, 0), (4, 0), (5, 0), (6, 0),
         (7, 0), (8, 0), (9, 0)]
        = [1, 1, 3, 3, 3, 3, 3, 2, 2, 1]
    ∧ getFacesetsFromCoordinates [(2, 0), (7, 0)]
        [(0, 0), (1, 0), (2, 0), (3, 0), (4, 0), (5, 0), (6, 0),
         (7, 0), (8, 0), (9, 0)]
        = [1, 1, 2, 2, 2, 2, 2, 1, 1, 1] :=
  C2_descending_range_ids
    [(0, 0), (1, 0), (2, 0), (3, 0), (4, 0), (5, 0), (6, 0), (7, 0), (8, 0), (9, 0)]
    (2, 0) (7, 0) (9, 0) (by decide) (by decide) (by decide) (by decide)

/-- C3: after shifting the boundary-attribute ids so their minimum is 1,
the contiguity assert of the faceset classifier succeeds exactly when the
distinct shifted ids are `{1, …, k}` with no gaps; `[1, 3, 2]` is accepted
and `[1, 4, 3]` is rejected. -/
theorem C3_contiguity_check :
    (∀ ba : List ℤ, ba ≠ [] →
      (boundaryAttributesOk ba = true ↔
        ∀ x : ℤ, x ∈ shiftedAttributes ba ↔ 1 ≤ x ∧ x ≤ (numDistinct ba : ℤ)))
    ∧ boundaryAttributesOk [1, 3, 2] = true
    ∧ boundaryAttributesOk [1, 4, 3] = false := by
  refine ⟨?_, by decide, by decide⟩
  intro ba _
  rw [boundaryAttributesOk, decide_eq_true_iff]
  constructor
  · intro he x
    rw [← mem_sortedDedup x (shiftedAttributes ba), he, mem_rangeList]
  · intro hm
    refine List.eq_of_perm_of_sorted ?_ (sortedDedup_sorted _) (rangeList_sorted _)
    rw [List.perm_ext_iff_of_nodup (sortedDedup_nodup _) (rangeList_nodup _)]
    intro x
    rw [mem_sortedDedup, mem_rangeList]
    exact hm x

/-- C4: for every accepted boundary-attribute array with `k` distinct
material ids, `generateComplexFacesets` writes exactly `k + 2` faceset
files without a top sub-partition and `k + 3` with one, and the top-split
faceset receives the trailing id `k + 3`. -/
theorem C4_faceset_count : ∀ ba : List ℤ, boundaryAttributesOk ba = true →
    (facesetFiles ba false).length = numDistinct ba + 2
    ∧ (facesetFiles ba true).length = numDistinct ba + 3
    ∧ topSplitId ba = numDistinct ba + 3 := by
  intro ba _
  refine ⟨?_, ?_, ?_⟩ <;> simp [facesetFiles, facesetCount, topSplitId]

/-- C4 witness: the accepted array `[1, 3, 2]` has 3 distinct ids and gets
5 faceset files, 6 with a top split, whose trailing id is 6. -/
theorem C4_faceset_count_inst :
    (facesetFiles [1, 3, 2] false).length = numDistinct [1, 3, 2] + 2
    ∧ (facesetFiles [1, 3, 2] true).length = numDistinct [1, 3, 2] + 3
    ∧ topSplitId [1, 3, 2] = numDistinct [1, 3, 2] + 3 :=
  C4_faceset_count [1, 3, 2] (by decide)

/-- C5: refuted at a concrete input.  For `target_layers = [1.5]`,
`addAttribute` does raise the validation error, but only after issuing the
sheet-read, extrusion, attribute, voronoi-interpolation, sheet-delete,
stacked-mesh-read and eslayer kernel commands: the command list preceding
the error is exactly that sequence, not empty as "before any kernel
command" would demand. -/
theorem C5_late_validation_refuted :
    (addAttribute (some [PyNum.floatVal (3 / 2)]) 3 false).2
        = some "layers contains non-conforming data"
    ∧ (addAttribute (some [PyNum.floatVal (3 / 2)]) 3 false).1
        = [KEvent.readSheet, KEvent.extrudeSheet, KEvent.addattExtrusion,
           KEvent.interpVoronoi, KEvent.deleteSheet, KEvent.readStack,
           KEvent.addattEslayer]
    ∧ ([KEvent.readSheet, KEvent.extrudeSheet, KEvent.addattExtrusion,
        KEvent.interpVoronoi, KEvent.deleteSheet, KEvent.readStack,
        KEvent.addattEslayer] : List KEvent) ≠ [] := by
  refine ⟨rfl, rfl, by decide⟩

/-- C5 (amended): whenever `target_layers` holds a non-integer entry,
`addAttribute` raises `ValueError('layers contains non-conforming data')`
before any per-layer interpolation command and before the output mesh is
dumped (so no output is produced), but only after the sheet-read,
extrusion, extrusion-attribute, voronoi-interpolation, sheet-delete,
stacked-mesh-read, optional named-attribute and eslayer-attribute kernel
commands have already been issued: the commands preceding the error are
exactly that sequence. -/
theorem C5_validation_scope : ∀ (l : List PyNum) (n : Nat) (b : Bool),
    l.all PyNum.isInt = false →
    (addAttribute (some l) n b).2 = some "layers contains non-conforming data"
    ∧ (addAttribute (some l) n b).1
        = [KEvent.readSheet, KEvent.extrudeSheet, KEvent.addattExtrusion,
           KEvent.interpVoronoi, KEvent.deleteSheet, KEvent.readStack]
          ++ (if b then [KEvent.addattName] else []) ++ [KEvent.addattEslayer]
    ∧ KEvent.dumpMesh ∉ (addAttribute (some l) n b).1
    ∧ (∀ z : ℤ, KEvent.interpLayer z ∉ (addAttribute (some l) n b).1)
    ∧ (addAttribute (some l) n b).1 ≠ [] := by
  intro l n b h
  refine ⟨?_, ?_, ?_, ?_, ?_⟩
  · simp [addAttribute, h]
  · cases b <;> simp [addAttribute, h]
  · cases b <;> simp [addAttribute, h]
  · intro z
    cases b <;> simp [addAttribute, h]
  · intro hempty
    cases b <;> simp [addAttribute, h] at hempty

/-- C5 witness: the amended statement at `target_layers = [0.5]` with a
named attribute requested. -/
theorem C5_validation_scope_inst :
    (addAttribute (some [PyNum.floatVal (1 / 2)]) 2 true).2
        = some "layers contains non-conforming data"
    ∧ (addAttribute (some [PyNum.floatVal (1 / 2)]) 2 true).1
        = [KEvent.readSheet, KEvent.extrudeSheet, KEvent.addattExtrusion,
           KEvent.interpVoronoi, KEvent.deleteSheet, KEvent.readStack]
          ++ (if true then [KEvent.addattName] else []) ++ [KEvent.addattEslayer]
    ∧ KEvent.dumpMesh ∉ (addAttribute (some [PyNum.floatVal (1 / 2)]) 2 true).1
    ∧ (∀ z : ℤ,
        KEvent.interpLayer z ∉ (addAttribute (some [PyNum.floatVal (1 / 2)]) 2 true).1)
    ∧ (addAttribute (some [PyNum.floatVal (1 / 2)]) 2 true).1 ≠ [] :=
  C5_validation_scope [PyNum.floatVal (1 / 2)] 2 true (by decide)

/-- C6: refuted at a concrete input.  With thicknesses `[0, 10]` (first
entry already 0) and three material ids, the lengths mismatch, yet
`stackLayers` accepts the pair: the assert only runs inside the
`layers[0] != 0` branch. -/
theorem C6_mismatch_accepted :
    stackLayersPrelude [0, 10] [1, 2, 3] = Except.ok ([0, 10], [1, 2, 3])
    ∧ ([(0 : ℚ), 10] : List ℚ).length ≠ ([1, 2, 3] : List ℤ).length := by
  refine ⟨?_, by decide⟩
  simp [stackLayersPrelude]

/-- C6 (amended): when `layers[0] ≠ 0`, `stackLayers` prepends a 0
thickness with material id 0 and asserts the (post-prepend) lengths match,
rejecting mismatched pairs; when `layers[0] = 0` no length check is
performed and every material-id list is accepted unchanged. -/
theorem C6_conditional_length_check : ∀ (l0 : ℚ) (rest : List ℚ) (matids : List ℤ),
    (l0 = 0 → stackLayersPrelude (l0 :: rest) matids = Except.ok (l0 :: rest, matids))
    ∧ (l0 ≠ 0 → rest.length + 1 = matids.length →
        stackLayersPrelude (l0 :: rest) matids
          = Except.ok (0 :: l0 :: rest, 0 :: matids))
    ∧ (l0 ≠ 0 → rest.length + 1 ≠ matids.length →
        stackLayersPrelude (l0 :: rest) matids
          = Except.error "AssertionError: len(layers) != len(matids)") := by
  intro l0 rest matids
  refine ⟨?_, ?_, ?_⟩
  · intro h
    simp [stackLayersPrelude, h]
  · intro h hlen
    have hl : ((0 : ℚ) :: l0 :: rest).length = ((0 : ℤ) :: matids).length := by
      simp only [List.length_cons]
      omega
    simp [stackLayersPrelude, h, hl]
  · intro h hlen
    have hl : ¬(((0 : ℚ) :: l0 :: rest).length = ((0 : ℤ) :: matids).length) := by
      simp only [List.length_cons]
      omega
    simp [stackLayersPrelude, h, hl]
    omega

/-- C7: the uniform triplane engine issues its refinement schedule over
the thresholds `64, 32, 16, 8, 4, 2, 1 × min_edge` in descending order,
and at each threshold performs one Rivara edge-bisection pass, exactly
three reconnection-smoothing repetitions, and a point compaction. -/
theorem C7_refinement_schedule : ∀ min_edge : ℚ, 0 < min_edge →
    length_scales min_edge
        = [min_edge * 64, min_edge * 32, min_edge * 16, min_edge * 8,
           min_edge * 4, min_edge * 2, min_edge * 1]
    ∧ (length_scales min_edge).Chain' (· > ·)
    ∧ scaleLoop min_edge
        = (length_scales min_edge).flatMap (fun ln =>
            [TCmd.refineEdges ln, TCmd.recon 0, TCmd.smooth, TCmd.recon 0,
             TCmd.smooth, TCmd.recon 0, TCmd.smooth, TCmd.compress])
    ∧ buildUniformTriplane min_edge
        = uniformSetup ++ scaleLoop min_edge ++ uniformFinish := by
  intro m hm
  have e : length_scales m
      = [m * 64, m * 32, m * 16, m * 8, m * 4, m * 2, m * 1] := by
    simp [length_scales]
  refine ⟨e, ?_, ?_, rfl⟩
  · rw [e]
    simp only [List.chain'_cons, List.chain'_singleton, and_true, gt_iff_lt]
    refine ⟨?_, ?_, ?_, ?_, ?_, ?_⟩ <;> linarith
  · rfl

/-- C7 witness: the schedule at the default `min_edge = 16`. -/
theorem C7_refinement_schedule_inst :
    length_scales 16
        = [16 * 64, 16 * 32, 16 * 16, 16 * 8, 16 * 4, 16 * 2, 16 * 1]
    ∧ (length_scales (16 : ℚ)).Chain' (· > ·)
    ∧ scaleLoop 16
        = (length_scales 16).flatMap (fun ln =>
            [TCmd.refineEdges ln, TCmd.recon 0, TCmd.smooth, TCmd.recon 0,
             TCmd.smooth, TCmd.recon 0, TCmd.smooth, TCmd.compress])
    ∧ buildUniformTriplane 16 = uniformSetup ++ scaleLoop 16 ++ uniformFinish :=
  C7_refinement_schedule 16 (by norm_num)

set_option maxRecDepth 8000 in
/-- C8: the feature-graded builder defines the perturbation magnitudes
`0.05 × s × h` for `s ∈ {8, 16, 32, 64}` under the names `PURTURB<s>`, but
its `perturb` commands reference the names `PERTURB<s>`, which no `define`
line of the script binds -- the defined magnitudes are never the ones the
perturb commands pass to the kernel. -/
theorem C8_perturb_tokens_undefined :
    ∀ (h slope refine_dist h_trans : ℚ) (outfile : String),
    LgStmt.defineNum "PURTURB8" (8 * 0.05 * h)
        ∈ buildRefinedTriplane h slope refine_dist h_trans outfile
    ∧ LgStmt.defineNum "PURTURB16" (16 * 0.05 * h)
        ∈ buildRefinedTriplane h slope refine_dist h_trans outfile
    ∧ LgStmt.defineNum "PURTURB32" (32 * 0.05 * h)
        ∈ buildRefinedTriplane h slope refine_dist h_trans outfile
    ∧ LgStmt.defineNum "PURTURB64" (64 * 0.05 * h)
        ∈ buildRefinedTriplane h slope refine_dist h_trans outfile
    ∧ perturbNames (buildRefinedTriplane h slope refine_dist h_trans outfile)
        = ["PERTURB64", "PERTURB32", "PERTURB16", "PERTURB8"]
    ∧ ∀ nm ∈ perturbNames (buildRefinedTriplane h slope refine_dist h_trans outfile),
        nm ∉ definedNames (buildRefinedTriplane h slope refine_dist h_trans outfile) := by
  intro h slope refine_dist h_trans outfile
  refine ⟨?_, ?_, ?_, ?_, rfl, ?_⟩
  · simp [buildRefinedTriplane]
  · simp [buildRefinedTriplane]
  · simp [buildRefinedTriplane]
  · simp [buildRefinedTriplane]
  · intro nm hnm
    have e : perturbNames (buildRefinedTriplane h slope refine_dist h_trans outfile)
        = ["PERTURB64", "PERTURB32", "PERTURB16", "PERTURB8"] := rfl
    have ed : definedNames (buildRefinedTriplane h slope refine_dist h_trans outfile)
        = ["ID", "OUTFILE_GMV", "OUTFILE_AVS", "OUTFILE_LG", "POLY_FILE",
           "LINE_FILE", "QUAD_FILE", "EXCAVATE_FILE", "PRE_FINAL_FILE",
           "PRE_FINAL_MASSAGE", "H_SCALE", "H_EPS", "H_SCALE2", "H_EXTRUDE",
           "H_TRANS", "H_PRIME", "H_PRIME2", "H_SCALE3", "H_SCALE8",
           "H_SCALE16", "H_SCALE32", "H_SCALE64", "PURTURB8", "PURTURB16",
           "PURTURB32", "PURTURB64", "PARAM_A", "PARAM_B", "PARAM_A2",
           "PARAM_B2", "THETA", "X1", "Y1", "Z1", "X2", "Y2", "Z2", "FAMILY",
           "OUTPUT_INTER_ID_SSINT"] := rfl
    rw [ed]
    rw [e] at hnm
    fin_cases hnm <;> decide

/-- C9: for every raster with at least one valid (non-sentinel) cell, the
no-data fill leaves no cell equal to the sentinel, and a second fill pass
over the already-filled raster is the identity. -/
theorem C9_fill_no_sentinel_and_idem : ∀ (w : Nat) (nd : ℚ) (g : List ℚ),
    validIdx nd g ≠ [] →
    (∀ c ∈ fillNoData w nd g, c ≠ nd)
    ∧ fillNoData w nd (fillNoData w nd g) = fillNoData w nd g :=
  fun w nd g hv => ⟨fillNoData_no_sentinel w nd g hv, fillNoData_idem w nd g hv⟩

/-- C9 witness: a 2-wide raster with sentinel `-9999` and two valid
cells. -/
theorem C9_fill_no_sentinel_and_idem_inst :
    (∀ c ∈ fillNoData 2 (-9999) [1, -9999, 3, -9999], c ≠ -9999)
    ∧ fillNoData 2 (-9999) (fillNoData 2 (-9999) [1, -9999, 3, -9999])
        = fillNoData 2 (-9999) [1, -9999, 3, -9999] :=
  C9_fill_no_sentinel_and_idem 2 (-9999) [1, -9999, 3, -9999] (by decide)

/-- C10: the faceset classifier's id normalization is performed on a fresh
array: every array the store held before the call, the caller's
boundary-attribute array `r` included, is unchanged afterwards, and the
fresh array holds the shifted ids. -/
theorem C10_no_inplace_shift : ∀ (s : List (List ℤ)) (r : Nat), r < s.length →
    (∀ i, i < s.length →
      (normalizeBoundaryAttributes s r).1.getD i [] = s.getD i [])
    ∧ (normalizeBoundaryAttributes s r).1.getD (normalizeBoundaryAttributes s r).2 []
        = (s.getD r []).map (fun x => x - listMinInt (s.getD r []) + 1) := by
  intro s r _
  constructor
  · intro i hi
    exact List.getD_append s _ [] i hi
  · exact getD_append_singleton s _

/-- C10 witness: the store holding only the array `[1, 3, 2]`. -/
theorem C10_no_inplace_shift_inst :
    (∀ i, i < ([[1, 3, 2]] : List (List ℤ)).length →
      (normalizeBoundaryAttributes [[1, 3, 2]] 0).1.getD i []
        = ([[1, 3, 2]] : List (List ℤ)).getD i [])
    ∧ (normalizeBoundaryAttributes [[1, 3, 2]] 0).1.getD
          (normalizeBoundaryAttributes [[1, 3, 2]] 0).2 []
        = (([[1, 3, 2]] : List (List ℤ)).getD 0 []).map
            (fun x => x - listMinInt (([[1, 3, 2]] : List (List ℤ)).getD 0 []) + 1) :=
  C10_no_inplace_shift [[1, 3, 2]] 0 (by decide)
